import Mathlib

/-!
Verification of the Agent Supervisor of the magalix-agent repository
(`agent/agent.go`, `main.go`) against its natural-language specification.

The Go code is shallowly embedded:

* `context.Context` cancellation tokens become the inductive `Token`
  (`all` is the root, `sources`, `sinks` and the errgroup-derived token
  `eg` are its children, exactly as created in `Start`); the mutable
  fired/not-fired state of the four `CancelFunc`s is the record `World`,
  and `World.cancelled` encodes Go's parent-to-child cancellation
  propagation.
* The observable actions of `Agent.Start` (handler registrations, task
  launches with the context each task receives, the blocking
  authorization wait, the errgroup join, cancel-function calls, return)
  become the event type `Ev`, and `startTrace` produces, line by line
  from the source of `Start`, the sequence of those events for a given
  environment (`Env`: the outcome of `WaitAuthorization` and the order
  and results in which launched tasks return).
* `errgroup.Group` semantics (`golang.org/x/sync/errgroup`): `Wait`
  returns the first non-nil error among the functions (`egWaitResult`),
  and the first non-nil error cancels the context derived by
  `errgroup.WithContext` — which in `Start` is discarded (`eg, _ :=`),
  so the cancellation fires the `eg` token only (`runWorld`).
* The struct `Agent`, the constructor `New` and the methods `Stop`,
  `stopSources`, `stopSinks` are translated field by field; Go nil
  handles become `none`, Go zero-valued UUID fields become `0`.
* `ConfigureGlobalLogger` from `main.go` is translated with the global
  logger state made explicit (`LoggerState`).
-/

namespace MagalixAgent

/-- Model of `uuid.UUID`; the Go zero value is `0`. -/
abbrev UUID := Nat

/-- Model of a Go `error` value; `none` is nil, `some e` a non-nil error. -/
abbrev Err := Nat

/-- The cancellation tokens created inside `Agent.Start`:
`all` from `context.WithCancel(context.Background())`,
`sources` and `sinks` from `context.WithCancel(allCtx)`, and
`eg` the context derived (and discarded) by `errgroup.WithContext(allCtx)`. -/
inductive Token where
  | all
  | sources
  | sinks
  | eg
deriving DecidableEq, Repr

/-- Fired state of the four cancel functions. Initially none is fired. -/
structure World where
  firedAll : Bool
  firedSources : Bool
  firedSinks : Bool
  firedEg : Bool
deriving DecidableEq, Repr

def World.init : World := ⟨false, false, false, false⟩

/-- Calling the cancel function of a token. -/
def World.fire (w : World) : Token → World
  | .all => { w with firedAll := true }
  | .sources => { w with firedSources := true }
  | .sinks => { w with firedSinks := true }
  | .eg => { w with firedEg := true }

/-- A context is cancelled when its own cancel function was called or an
ancestor's was: `sources`, `sinks` and `eg` are children of `all`. -/
def World.cancelled (w : World) : Token → Bool
  | .all => w.firedAll
  | .sources => w.firedAll || w.firedSources
  | .sinks => w.firedAll || w.firedSinks
  | .eg => w.firedAll || w.firedEg

/-- The tasks `Start` may launch via `eg.Go`. -/
inductive Task where
  | gateway
  | entities
  | metrics
  | automation
  | auditor
deriving DecidableEq, Repr

/-- The handler registrations performed by `Start` (lines 71-89 of
`agent/agent.go`), one constructor per `Set…Handler` call site. -/
inductive Handler where
  | automationFeedback  -- AutomationExecutor.SetAutomationFeedbackHandler
  | automation          -- Gateway.SetAutomationHandler (SubmitAutomation)
  | metrics             -- MetricsSource.SetMetricsHandler
  | deltas              -- EntitiesSource.SetDeltasHandler
  | resync              -- EntitiesSource.SetEntitiesResyncHandler
  | auditResult         -- Auditor.SetAuditResultHandler
  | auditCommand        -- Gateway.SetAuditCommandHandler
  | constraints         -- Gateway.SetConstraintsHandler
  | restart             -- Gateway.SetRestartHandler
  | logLevel            -- Gateway.SetChangeLogLevelHandler
deriving DecidableEq, Repr

/-- Observable events of a run of `Agent.Start`, in program order. -/
inductive Ev where
  /-- a `Set…Handler` call completed -/
  | register (h : Handler)
  /-- `eg.Go(func() { return t.Start(tok) })`: task `t` launched with
  the context of token `tok` -/
  | launch (t : Task) (tok : Token)
  /-- `Gateway.WaitAuthorization(timeout)` returned `result` -/
  | waitAuth (timeout : Int) (result : Option Err)
  /-- `eg.Wait()` returned (all launched tasks joined) -/
  | egWait
  /-- the cancel function of token `t` was called by the supervisor -/
  | fireToken (t : Token)
  /-- `Start` returns `r` to its caller -/
  | ret (r : Option Err)
deriving DecidableEq, Repr

/-- `time.Hour` in nanoseconds (Go `time.Duration` units). -/
def timeHour : Int := 3600 * 1000000000

/-- `const AuthorizationTimeoutDuration = 2 * time.Hour` (agent.go line 12). -/
def AuthorizationTimeoutDuration : Int := 2 * timeHour

/-- The collaborators are opaque to the supervisor; each is modelled by
an identity drawn from `Nat`. -/
abbrev Collab := Nat

/-- The `Agent` struct (agent.go lines 18-37). The three cancel handles
hold the token their `CancelFunc` fires, or `none` for a nil handle. -/
structure Agent where
  AccountID : UUID
  ClusterID : UUID
  AgentID : UUID
  MetricsSource : Collab
  EntitiesSource : Collab
  AutomationExecutor : Collab
  Gateway : Collab
  Auditor : Collab
  EnableMetrics : Bool
  EnableAutomation : Bool
  changeLogLevel : Collab
  cancelAll : Option Token
  cancelSources : Option Token
  cancelSinks : Option Token
deriving DecidableEq, Repr

/-- `New` (agent.go lines 39-59). The composite literal omits
`AccountID`, `ClusterID`, `AgentID` and the cancel handles, so they take
their Go zero values (`0` and nil). -/
def New (metricsSource entitiesSource automationExecutor gateway : Collab)
    (logLevelHandler : Collab) (auditor : Collab)
    (enableMetrics enableAutomation : Bool) : Agent :=
  { AccountID := 0
    ClusterID := 0
    AgentID := 0
    MetricsSource := metricsSource
    EntitiesSource := entitiesSource
    AutomationExecutor := automationExecutor
    Gateway := gateway
    Auditor := auditor
    EnableMetrics := enableMetrics
    EnableAutomation := enableAutomation
    changeLogLevel := logLevelHandler
    cancelAll := none
    cancelSources := none
    cancelSinks := none }

/-- Lines 62-69 of `Start`: create the root token and its two children
and store the three cancel functions on the agent. -/
def startHandles (a : Agent) : Agent :=
  { a with cancelAll := some .all
           cancelSources := some .sources
           cancelSinks := some .sinks }

/-- `stopSources` (agent.go lines 112-119): nil-check, cancel, set the
handle to nil, return nil. -/
def stopSources (a : Agent) (w : World) : Agent × World × Option Err :=
  match a.cancelSources with
  | none => (a, w, none)
  | some t => ({ a with cancelSources := none }, w.fire t, none)

/-- `stopSinks` (agent.go lines 121-128). -/
def stopSinks (a : Agent) (w : World) : Agent × World × Option Err :=
  match a.cancelSinks with
  | none => (a, w, none)
  | some t => ({ a with cancelSinks := none }, w.fire t, none)

/-- `Stop` (agent.go lines 130-138). -/
def Stop (a : Agent) (w : World) : Agent × World × Option Err :=
  match a.cancelAll with
  | none => (a, w, none)
  | some t => ({ a with cancelAll := none }, w.fire t, none)

/-- Environment of one run of `Start`: the outcome of
`Gateway.WaitAuthorization`, and — when authorization succeeds — the
order in which the launched tasks return together with each task's
returned error (`none` = nil). A task that never returns (e.g. one that
only exits on a cancellation it never observes) simply has no entry. -/
structure Env where
  authErr : Option Err
  completions : List (Task × Option Err)
deriving DecidableEq, Repr

/-- `errgroup.Group.Wait`: returns the first non-nil error returned by
any of the functions started with `Go`, or nil if none errored
(`errOnce` keeps only the earliest). -/
def egWaitResult : List (Task × Option Err) → Option Err
  | [] => none
  | (_, some e) :: _ => some e
  | (_, none) :: rest => egWaitResult rest

/-- Token state during the `eg.Wait` phase of `Start`. Each function
that returns a non-nil error makes the errgroup call its stored cancel
function — which is the cancel of the context derived by
`errgroup.WithContext(allCtx)`, i.e. the `eg` token; the supervisor
fires nothing else during this phase. (`errOnce` runs the cancel only
for the earliest error; `World.fire` is idempotent, so firing on every
error is equivalent.) -/
def runWorld (w : World) : List (Task × Option Err) → World
  | [] => w
  | (_, some _) :: rest => runWorld (w.fire .eg) rest
  | (_, none) :: rest => runWorld w rest

/-- The `Set…Handler` calls of `Start` (agent.go lines 71-89), in
program order. -/
def registrations (a : Agent) : List Ev :=
  (if a.EnableAutomation then
    [.register .automationFeedback, .register .automation]
   else []) ++
  (if a.EnableMetrics then [.register .metrics] else []) ++
  [.register .deltas, .register .resync, .register .auditResult,
   .register .auditCommand, .register .constraints, .register .restart,
   .register .logLevel]

/-- The `eg.Go` calls after successful authorization (agent.go lines
100-107): EntitiesSource, then MetricsSource if enabled, then
AutomationExecutor if enabled, then Auditor — all with `sourcesCtx`. -/
def sourceLaunches (a : Agent) : List Ev :=
  [.launch .entities .sources] ++
  (if a.EnableMetrics then [.launch .metrics .sources] else []) ++
  (if a.EnableAutomation then [.launch .automation .sources] else []) ++
  [.launch .auditor .sources]

/-- The event trace of `Agent.Start` (agent.go lines 61-110) in the
environment `env`. After the registrations, the Gateway task is
launched with `sinksCtx`; `WaitAuthorization(AuthorizationTimeoutDuration)`
blocks; on a non-nil result `Start` returns that error, the deferred
`a.cancelAll()` firing the root on the way out; on nil the source tasks
are launched, `eg.Wait()` joins every launched task, its result is the
return value, and the deferred `a.cancelAll()` again fires the root
before control reaches the caller. -/
def startTrace (a : Agent) (env : Env) : List Ev :=
  registrations a ++
  [.launch .gateway .sinks,
   .waitAuth AuthorizationTimeoutDuration env.authErr] ++
  match env.authErr with
  | some e => [.fireToken .all, .ret (some e)]
  | none =>
      sourceLaunches a ++
      [.egWait, .fireToken .all, .ret (egWaitResult env.completions)]

/-- The tasks launched in a trace, in launch order. -/
def launchedTasks (tr : List Ev) : List Task :=
  tr.filterMap fun e =>
    match e with
    | .launch t _ => some t
    | _ => none

/-- Token state after the supervisor-performed cancellations of a trace. -/
def traceWorld (w : World) : List Ev → World
  | [] => w
  | .fireToken t :: rest => traceWorld (w.fire t) rest
  | _ :: rest => traceWorld w rest

/-- Phase of an event in the startup order the specification claims:
registrations (0), Gateway launch (1), authorization-wait completion
(2), source-task launches (3), everything after (4). -/
def phase : Ev → Nat
  | .register _ => 0
  | .launch .gateway _ => 1
  | .waitAuth _ _ => 2
  | .launch _ _ => 3
  | .egWait => 4
  | .fireToken _ => 4
  | .ret _ => 4

/-! ## Logger (`main.go`) -/

/-- `logger.Level` values used by `ConfigureGlobalLogger`. -/
inductive Level where
  | info
  | debug
  | warn
  | error
deriving DecidableEq, Repr

/-- The process-wide logger: the configured severity, the configured
sink (`logger.ConfigWriterSync`), and the global fields installed by
`logger.WithGlobal`. -/
structure LoggerState where
  level : Level
  sink : Nat
  globalAccountID : Option UUID
  globalClusterID : Option UUID
deriving DecidableEq, Repr

/-- `LogLevel` (agent.go lines 14-16). -/
structure LogLevel where
  Level : String
deriving DecidableEq, Repr

/-- `ConfigureGlobalLogger` (main.go lines 370-387): resolve the level
name via the `switch`; on an unrecognized name return an
unsupported-level error before touching any configuration; otherwise
reconfigure the sink and severity and install the global fields. -/
def ConfigureGlobalLogger (accountId clusterId : UUID) (level : String)
    (logsSink : Nat) (st : LoggerState) : LoggerState × Option String :=
  if level = "info" then
    ({ level := .info, sink := logsSink,
       globalAccountID := some accountId,
       globalClusterID := some clusterId }, none)
  else if level = "debug" then
    ({ level := .debug, sink := logsSink,
       globalAccountID := some accountId,
       globalClusterID := some clusterId }, none)
  else if level = "warn" then
    ({ level := .warn, sink := logsSink,
       globalAccountID := some accountId,
       globalClusterID := some clusterId }, none)
  else if level = "error" then
    ({ level := .error, sink := logsSink,
       globalAccountID := some accountId,
       globalClusterID := some clusterId }, none)
  else
    (st, some ("unsupported log level " ++ level))

/-- The log-level handler `main.go` wires into the agent (lines
305-307): it forwards `level.Level` to `ConfigureGlobalLogger`. -/
def mainLogLevelHandler (accountId clusterId : UUID) (logsSink : Nat)
    (st : LoggerState) (level : LogLevel) : LoggerState × Option String :=
  ConfigureGlobalLogger accountId clusterId level.Level logsSink st

/-! ## Event classification -/

def Ev.isRegister : Ev → Bool
  | .register _ => true
  | _ => false

def Ev.isLaunch : Ev → Bool
  | .launch _ _ => true
  | _ => false

def Ev.isGatewayLaunch : Ev → Bool
  | .launch .gateway _ => true
  | _ => false

/-- A launch of one of the source components (any task but the Gateway). -/
def Ev.isSourceLaunch : Ev → Bool
  | .launch .gateway _ => false
  | .launch _ _ => true
  | _ => false

/-- The completion of the `WaitAuthorization` call, irrespective of result. -/
def Ev.isAuthReturn : Ev → Bool
  | .waitAuth _ _ => true
  | _ => false

/-- The completion of the `WaitAuthorization` call with a nil error. -/
def Ev.isAuthSuccess : Ev → Bool
  | .waitAuth _ none => true
  | _ => false

/-! ## Helper lemmas -/

theorem phase_of_isRegister {e : Ev} (h : e.isRegister = true) : phase e = 0 := by
  cases e <;> simp [Ev.isRegister] at h <;> rfl

theorem phase_of_isGatewayLaunch {e : Ev} (h : e.isGatewayLaunch = true) :
    phase e = 1 := by
  cases e with
  | launch t tok => cases t <;> simp [Ev.isGatewayLaunch] at h <;> rfl
  | _ => simp [Ev.isGatewayLaunch] at h

theorem phase_of_isSourceLaunch {e : Ev} (h : e.isSourceLaunch = true) :
    phase e = 3 := by
  cases e with
  | launch t tok => cases t <;> simp [Ev.isSourceLaunch] at h <;> rfl
  | _ => simp [Ev.isSourceLaunch] at h

theorem phase_of_isAuthReturn {e : Ev} (h : e.isAuthReturn = true) :
    phase e = 2 := by
  cases e <;> simp [Ev.isAuthReturn] at h <;> rfl

theorem phase_of_isAuthSuccess {e : Ev} (h : e.isAuthSuccess = true) :
    phase e = 2 := by
  cases e with
  | waitAuth d r => rfl
  | _ => simp [Ev.isAuthSuccess] at h

theorem one_le_phase_of_isLaunch {e : Ev} (h : e.isLaunch = true) :
    1 ≤ phase e := by
  cases e with
  | launch t tok => cases t <;> simp [phase]
  | _ => simp [Ev.isLaunch] at h

/-- The phases of the events of a `Start` trace are nondecreasing in
program order: registrations, then the Gateway launch, then the
authorization wait, then source launches, then join/cancel/return. -/
theorem startTrace_phase_sorted (a : Agent) (env : Env) :
    ((startTrace a env).map phase).Sorted (· ≤ ·) := by
  rcases env with ⟨authErr, completions⟩
  cases authErr <;> cases hm : a.EnableMetrics <;> cases ha : a.EnableAutomation <;>
    simp [startTrace, registrations, sourceLaunches, hm, ha, phase]

theorem startTrace_phase_mono (a : Agent) (env : Env) {i j : Nat}
    (hi : i < (startTrace a env).length) (hj : j < (startTrace a env).length)
    (hij : i ≤ j) :
    phase ((startTrace a env).get ⟨i, hi⟩) ≤
      phase ((startTrace a env).get ⟨j, hj⟩) := by
  have hs := startTrace_phase_sorted a env
  have hlen : ((startTrace a env).map phase).length = (startTrace a env).length :=
    List.length_map _ _
  have h := hs.rel_get_of_le
    (a := ⟨i, by simpa [hlen] using hi⟩) (b := ⟨j, by simpa [hlen] using hj⟩)
    (by simpa [Fin.le_def] using hij)
  simpa [List.get_eq_getElem, List.getElem_map] using h

/-- During the `eg.Wait` phase only the errgroup's own (discarded)
token can be fired: the fired state of `all`, `sources` and `sinks` is
untouched by task completions. -/
theorem runWorld_preserves_supervisor_tokens (cs : List (Task × Option Err))
    (w : World) :
    (runWorld w cs).firedAll = w.firedAll ∧
    (runWorld w cs).firedSources = w.firedSources ∧
    (runWorld w cs).firedSinks = w.firedSinks := by
  induction cs generalizing w with
  | nil => exact ⟨rfl, rfl, rfl⟩
  | cons c rest ih =>
      rcases c with ⟨t, r⟩
      cases r with
      | none => simpa [runWorld] using ih w
      | some e => simpa [runWorld, World.fire] using ih (w.fire .eg)

theorem traceWorld_append (xs ys : List Ev) (w : World) :
    traceWorld w (xs ++ ys) = traceWorld (traceWorld w xs) ys := by
  induction xs generalizing w with
  | nil => rfl
  | cons x rest ih => cases x <;> simp [traceWorld, ih]

theorem traceWorld_registrations (a : Agent) (w : World) :
    traceWorld w (registrations a) = w := by
  cases hm : a.EnableMetrics <;> cases ha : a.EnableAutomation <;>
    simp [registrations, hm, ha, traceWorld]

theorem traceWorld_sourceLaunches (a : Agent) (w : World) :
    traceWorld w (sourceLaunches a) = w := by
  cases hm : a.EnableMetrics <;> cases ha : a.EnableAutomation <;>
    simp [sourceLaunches, hm, ha, traceWorld]

theorem launchedTasks_append (xs ys : List Ev) :
    launchedTasks (xs ++ ys) = launchedTasks xs ++ launchedTasks ys := by
  simp [launchedTasks]

theorem launchedTasks_registrations (a : Agent) :
    launchedTasks (registrations a) = [] := by
  cases hm : a.EnableMetrics <;> cases ha : a.EnableAutomation <;>
    simp [registrations, hm, ha, launchedTasks]

/-! ## Claims -/

/-- **C1** — the claim says that when a launched task returns a non-nil
error first, the root token is cancelled so that every sibling observes
cancellation, and that `Start` returns exactly that first error. The
code does return the first error and suppresses later ones (`errOnce`),
but the cancellation half fails: `errgroup.WithContext(allCtx)` derives
a context that `Start` discards (`eg, _ :=`), and the tasks hold
`sourcesCtx`/`sinksCtx`, children of `allCtx` only. This theorem shows
that throughout the `eg.Wait` phase — in particular at the moment the
first error is recorded — `all`, `sources` and `sinks` are all
uncancelled (only the discarded `eg` token is fired), while
`egWaitResult` returns the first error and suppresses the later one. -/
theorem C1_first_failure_does_not_cancel_root :
    (∀ cs : List (Task × Option Err),
      (runWorld World.init cs).cancelled .all = false ∧
      (runWorld World.init cs).cancelled .sources = false ∧
      (runWorld World.init cs).cancelled .sinks = false) ∧
    (∀ (t : Task) (e : Err) (rest : List (Task × Option Err)),
      egWaitResult ((t, some e) :: rest) = some e) ∧
    egWaitResult [(Task.entities, some 1), (Task.gateway, some 2)] = some 1 ∧
    runWorld World.init [(Task.entities, some 1)] =
      { firedAll := false, firedSources := false, firedSinks := false,
        firedEg := true } := by
  refine ⟨fun cs => ?_, fun t e rest => rfl, rfl, rfl⟩
  obtain ⟨h1, h2, h3⟩ := runWorld_preserves_supervisor_tokens cs World.init
  simp only [World.cancelled, h1, h2, h3]
  simp [World.init]

/-- **C2** — `Start` blocks on `WaitAuthorization` with the fixed
2-hour timeout (`AuthorizationTimeoutDuration = 2 * time.Hour`, i.e.
7 200 000 000 000 ns), and when it returns a non-nil error `Start`
returns that very error having launched no task but the Gateway one:
the whole trace is the registrations, the Gateway launch, the failed
wait, the deferred root cancel and the return. -/
theorem C2_auth_failure_launches_nothing_else (a : Agent) (env : Env)
    (e : Err) (h : env.authErr = some e) :
    AuthorizationTimeoutDuration = 7200 * 1000000000 ∧
    Ev.waitAuth AuthorizationTimeoutDuration (some e) ∈ startTrace a env ∧
    launchedTasks (startTrace a env) = [.gateway] ∧
    startTrace a env =
      registrations a ++
      [.launch .gateway .sinks,
       .waitAuth AuthorizationTimeoutDuration (some e),
       .fireToken .all, .ret (some e)] := by
  have htr : startTrace a env =
      registrations a ++
      [.launch .gateway .sinks,
       .waitAuth AuthorizationTimeoutDuration (some e),
       .fireToken .all, .ret (some e)] := by
    simp [startTrace, h]
  refine ⟨by norm_num [AuthorizationTimeoutDuration, timeHour], ?_, ?_, htr⟩
  · rw [htr]; simp
  · rw [htr, launchedTasks_append, launchedTasks_registrations a]
    rfl

/-- Witness for C2 at a concrete agent and environment. -/
theorem C2_witness :
    AuthorizationTimeoutDuration = 7200 * 1000000000 ∧
    Ev.waitAuth AuthorizationTimeoutDuration (some 5) ∈
      startTrace (New 0 0 0 0 0 0 true true) ⟨some 5, []⟩ ∧
    launchedTasks (startTrace (New 0 0 0 0 0 0 true true) ⟨some 5, []⟩) =
      [.gateway] ∧
    startTrace (New 0 0 0 0 0 0 true true) ⟨some 5, []⟩ =
      registrations (New 0 0 0 0 0 0 true true) ++
      [.launch .gateway .sinks,
       .waitAuth AuthorizationTimeoutDuration (some 5),
       .fireToken .all, .ret (some 5)] :=
  C2_auth_failure_launches_nothing_else (New 0 0 0 0 0 0 true true)
    ⟨some 5, []⟩ 5 rfl

/-- **C10** — on every return path of `Start` (authorization failure or
the post-`eg.Wait` path, whether the joint result is an error or nil)
the trace ends with the deferred `a.cancelAll()` firing the root token
followed by the return, and the world reached by the supervisor's
cancellations has `all`, and transitively `sources` and `sinks`,
cancelled before control reaches the caller. -/
theorem C10_root_cancelled_on_every_return (a : Agent) (env : Env) :
    (∃ pre r, startTrace a env = pre ++ [.fireToken .all, .ret r]) ∧
    (traceWorld World.init (startTrace a env)).cancelled .all = true ∧
    (traceWorld World.init (startTrace a env)).cancelled .sources = true ∧
    (traceWorld World.init (startTrace a env)).cancelled .sinks = true := by
  rcases env with ⟨authErr, completions⟩
  cases authErr with
  | some e =>
      constructor
      · exact ⟨registrations a ++ [.launch .gateway .sinks,
          .waitAuth AuthorizationTimeoutDuration (some e)], some e, by
            simp [startTrace]⟩
      · have : startTrace a ⟨some e, completions⟩ =
            (registrations a ++ [.launch .gateway .sinks,
              .waitAuth AuthorizationTimeoutDuration (some e)]) ++
            [.fireToken .all, .ret (some e)] := by simp [startTrace]
        rw [this, traceWorld_append, traceWorld_append,
          traceWorld_registrations]
        simp [traceWorld, World.fire, World.cancelled]
  | none =>
      constructor
      · exact ⟨registrations a ++ [.launch .gateway .sinks,
          .waitAuth AuthorizationTimeoutDuration none] ++ sourceLaunches a ++
          [.egWait], egWaitResult completions, by simp [startTrace]⟩
      · have : startTrace a ⟨none, completions⟩ =
            registrations a ++ [.launch .gateway .sinks,
              .waitAuth AuthorizationTimeoutDuration none] ++
            sourceLaunches a ++
            [.egWait, .fireToken .all, .ret (egWaitResult completions)] := by
          simp [startTrace]
        rw [this, traceWorld_append, traceWorld_append, traceWorld_append,
          traceWorld_registrations, traceWorld_sourceLaunches]
        simp [traceWorld, World.fire, World.cancelled]

/-- **C5** — after successful authorization exactly the claimed tasks
are launched, all under the `sources` token: EntitiesSource and Auditor
unconditionally, MetricsSource iff `EnableMetrics`, AutomationExecutor
iff `EnableAutomation`; the metrics handler is registered iff
`EnableMetrics`, and both automation handlers (`SubmitAutomation` on
the Gateway, the feedback handler on the executor) iff
`EnableAutomation`. -/
theorem C5_flag_conditioned_launches_and_wiring (a : Agent) (env : Env)
    (h : env.authErr = none) :
    launchedTasks (startTrace a env) =
      [.gateway, .entities] ++
      (if a.EnableMetrics then [.metrics] else []) ++
      (if a.EnableAutomation then [.automation] else []) ++ [.auditor] ∧
    (Ev.launch .entities .sources ∈ startTrace a env) ∧
    (Ev.launch .auditor .sources ∈ startTrace a env) ∧
    ((Ev.launch .metrics .sources ∈ startTrace a env) ↔
      a.EnableMetrics = true) ∧
    ((Ev.launch .automation .sources ∈ startTrace a env) ↔
      a.EnableAutomation = true) ∧
    ((Ev.register .metrics ∈ startTrace a env) ↔ a.EnableMetrics = true) ∧
    ((Ev.register .automation ∈ startTrace a env) ↔
      a.EnableAutomation = true) ∧
    ((Ev.register .automationFeedback ∈ startTrace a env) ↔
      a.EnableAutomation = true) ∧
    (∀ tok, Ev.launch .entities tok ∈ startTrace a env → tok = .sources) ∧
    (∀ tok, Ev.launch .metrics tok ∈ startTrace a env → tok = .sources) ∧
    (∀ tok, Ev.launch .automation tok ∈ startTrace a env → tok = .sources) ∧
    (∀ tok, Ev.launch .auditor tok ∈ startTrace a env → tok = .sources) := by
  rcases env with ⟨authErr, completions⟩
  cases h
  cases hm : a.EnableMetrics <;> cases ha : a.EnableAutomation <;>
    simp [startTrace, registrations, sourceLaunches, launchedTasks, hm, ha]

/-- Witness for C5 with both flags enabled. -/
theorem C5_witness :
    launchedTasks (startTrace (New 0 0 0 0 0 0 true true) ⟨none, []⟩) =
      [.gateway, .entities] ++
      (if (New 0 0 0 0 0 0 true true).EnableMetrics then [.metrics] else []) ++
      (if (New 0 0 0 0 0 0 true true).EnableAutomation then [.automation]
       else []) ++ [.auditor] ∧
    (Ev.launch .entities .sources ∈
      startTrace (New 0 0 0 0 0 0 true true) ⟨none, []⟩) ∧
    ((Ev.launch .metrics .sources ∈
      startTrace (New 0 0 0 0 0 0 true true) ⟨none, []⟩) ↔
      (New 0 0 0 0 0 0 true true).EnableMetrics = true) ∧
    ((Ev.register .automationFeedback ∈
      startTrace (New 0 0 0 0 0 0 true true) ⟨none, []⟩) ↔
      (New 0 0 0 0 0 0 true true).EnableAutomation = true) :=
  ⟨(C5_flag_conditioned_launches_and_wiring (New 0 0 0 0 0 0 true true)
      ⟨none, []⟩ rfl).1,
   (C5_flag_conditioned_launches_and_wiring (New 0 0 0 0 0 0 true true)
      ⟨none, []⟩ rfl).2.1,
   (C5_flag_conditioned_launches_and_wiring (New 0 0 0 0 0 0 true true)
      ⟨none, []⟩ rfl).2.2.2.1,
   (C5_flag_conditioned_launches_and_wiring (New 0 0 0 0 0 0 true true)
      ⟨none, []⟩ rfl).2.2.2.2.2.2.2.1⟩

/-- **C6** — startup ordering: in every trace of `Start`, every handler
registration precedes every task launch; the Gateway launch precedes
the completion of the authorization wait and every source-task launch;
and a source task is only ever launched after the authorization wait
completed successfully. -/
theorem C6_registrations_then_gateway_then_auth_then_sources
    (a : Agent) (env : Env) (i j : Nat)
    (hi : i < (startTrace a env).length)
    (hj : j < (startTrace a env).length) :
    (((startTrace a env).get ⟨i, hi⟩).isRegister = true →
      ((startTrace a env).get ⟨j, hj⟩).isLaunch = true → i < j) ∧
    (((startTrace a env).get ⟨i, hi⟩).isGatewayLaunch = true →
      ((startTrace a env).get ⟨j, hj⟩).isAuthReturn = true → i < j) ∧
    (((startTrace a env).get ⟨i, hi⟩).isGatewayLaunch = true →
      ((startTrace a env).get ⟨j, hj⟩).isSourceLaunch = true → i < j) ∧
    (((startTrace a env).get ⟨i, hi⟩).isAuthSuccess = true →
      ((startTrace a env).get ⟨j, hj⟩).isSourceLaunch = true → i < j) := by
  refine ⟨fun h1 h2 => ?_, fun h1 h2 => ?_, fun h1 h2 => ?_, fun h1 h2 => ?_⟩ <;>
    by_contra hc <;>
    push_neg at hc <;>
    have hmono := startTrace_phase_mono a env hj hi hc
  · have e1 := phase_of_isRegister h1
    have e2 := one_le_phase_of_isLaunch h2
    omega
  · have e1 := phase_of_isGatewayLaunch h1
    have e2 := phase_of_isAuthReturn h2
    omega
  · have e1 := phase_of_isGatewayLaunch h1
    have e2 := phase_of_isSourceLaunch h2
    omega
  · have e1 := phase_of_isAuthSuccess h1
    have e2 := phase_of_isSourceLaunch h2
    omega

/-- Witness for C6: in a concrete successful trace, event 0 is a
registration, event 10 the Gateway launch, event 11 the authorization
return, event 12 a source launch, and the theorem orders them. -/
theorem C6_witness :
    ((startTrace (New 0 0 0 0 0 0 true true) ⟨none, []⟩).get
      ⟨0, by decide⟩).isRegister = true ∧
    ((startTrace (New 0 0 0 0 0 0 true true) ⟨none, []⟩).get
      ⟨10, by decide⟩).isGatewayLaunch = true ∧
    ((startTrace (New 0 0 0 0 0 0 true true) ⟨none, []⟩).get
      ⟨11, by decide⟩).isAuthSuccess = true ∧
    ((startTrace (New 0 0 0 0 0 0 true true) ⟨none, []⟩).get
      ⟨12, by decide⟩).isSourceLaunch = true ∧
    0 < 10 ∧ 10 < 11 ∧ 11 < 12 :=
  ⟨by decide, by decide, by decide, by decide,
   (C6_registrations_then_gateway_then_auth_then_sources
      (New 0 0 0 0 0 0 true true) ⟨none, []⟩ 0 10 (by decide)
      (by decide)).1 (by decide) (by decide),
   (C6_registrations_then_gateway_then_auth_then_sources
      (New 0 0 0 0 0 0 true true) ⟨none, []⟩ 10 11 (by decide)
      (by decide)).2.1 (by decide) (by decide),
   (C6_registrations_then_gateway_then_auth_then_sources
      (New 0 0 0 0 0 0 true true) ⟨none, []⟩ 11 12 (by decide)
      (by decide)).2.2.2 (by decide) (by decide)⟩

/-- **C3, counterexample** — the claim says the Gateway task is
launched under the root token and is therefore unaffected by
`stopSinks`. In the code `eg.Go(func() { return a.Gateway.Start(sinksCtx) })`
passes `sinksCtx`: in a concrete trace the Gateway is launched with the
`sinks` token and not with the root, and after `stopSinks` the `sinks`
token — the Gateway's context — is cancelled. -/
theorem C3_counterexample :
    (Ev.launch .gateway .sinks ∈
      startTrace (New 0 0 0 0 0 0 false false) ⟨none, []⟩) ∧
    (Ev.launch .gateway .all ∉
      startTrace (New 0 0 0 0 0 0 false false) ⟨none, []⟩) ∧
    ((stopSinks (startHandles (New 0 0 0 0 0 0 false false))
        World.init).2.1.cancelled .sinks = true) := by
  refine ⟨by decide, by decide, rfl⟩

/-- **C3, amended** — the Gateway's run task is launched under the
`sinks` child token (never the root); `stopSinks` fires exactly the
`sinks` token, leaving the `sources` token and the root with the
cancellation state they had, while the `sinks` token — and with it the
Gateway task's context — becomes cancelled. -/
theorem C3_gateway_under_sinks_token (a : Agent) (env : Env) (w : World) :
    (∀ tok, Ev.launch .gateway tok ∈ startTrace a env → tok = .sinks) ∧
    (Ev.launch .gateway .sinks ∈ startTrace a env) ∧
    ((stopSinks (startHandles a) w).2.1 = w.fire .sinks) ∧
    ((w.fire .sinks).cancelled .sources = w.cancelled .sources) ∧
    ((w.fire .sinks).cancelled .all = w.cancelled .all) ∧
    ((w.fire .sinks).cancelled .sinks = true) := by
  refine ⟨?_, ?_, ?_, ?_, ?_, ?_⟩
  · intro tok hmem
    rcases env with ⟨authErr, completions⟩
    cases authErr <;> cases hm : a.EnableMetrics <;>
      cases ha : a.EnableAutomation <;>
      simp [startTrace, registrations, sourceLaunches, hm, ha] at hmem <;>
      exact hmem
  · rcases env with ⟨authErr, completions⟩
    cases authErr <;> cases hm : a.EnableMetrics <;>
      cases ha : a.EnableAutomation <;>
      simp [startTrace, registrations, sourceLaunches, hm, ha]
  · simp [stopSinks, startHandles]
  · cases w; simp [World.fire, World.cancelled]
  · rfl
  · cases w; simp [World.fire, World.cancelled]

/-- Witness for C3 amended, instantiating the quantified conjunct. -/
theorem C3_witness :
    (Ev.launch .gateway .sinks ∈
      startTrace (New 1 2 3 4 5 6 true false) ⟨none, []⟩) ∧
    Token.sinks = Token.sinks ∧
    ((stopSinks (startHandles (New 1 2 3 4 5 6 true false))
        World.init).2.1 = World.init.fire .sinks) :=
  ⟨(C3_gateway_under_sinks_token (New 1 2 3 4 5 6 true false)
      ⟨none, []⟩ World.init).2.1,
   (C3_gateway_under_sinks_token (New 1 2 3 4 5 6 true false)
      ⟨none, []⟩ World.init).1 .sinks (by decide),
   (C3_gateway_under_sinks_token (New 1 2 3 4 5 6 true false)
      ⟨none, []⟩ World.init).2.2.1⟩

/-- **C4, counterexample** — the claim says that on an authorization
error `Start` waits for the Gateway task to exit before returning. The
only join primitive in `Start` is `eg.Wait()`, and on the
authorization-error path it is never reached: the concrete trace
contains no join event and ends directly with the return of the
authorization error. -/
theorem C4_counterexample :
    (Ev.egWait ∉ startTrace (New 0 0 0 0 0 0 true true) ⟨some 7, []⟩) ∧
    (startTrace (New 0 0 0 0 0 0 true true) ⟨some 7, []⟩).getLast? =
      some (.ret (some 7)) := by
  refine ⟨by decide, by decide⟩

/-- **C4, amended** — on an authorization error `Start` does cancel the
root token before control returns to the caller (the deferred
`a.cancelAll()` runs on the way out), and returns the authorization
error — but it does not wait for the Gateway task to exit: the trace is
exactly the registrations, the Gateway launch, the failed wait, the
root cancel and the return, with no join event. -/
theorem C4_auth_failure_cancels_root_without_join (a : Agent) (env : Env)
    (e : Err) (h : env.authErr = some e) :
    startTrace a env =
      registrations a ++
      [.launch .gateway .sinks,
       .waitAuth AuthorizationTimeoutDuration (some e),
       .fireToken .all, .ret (some e)] ∧
    (Ev.egWait ∉ startTrace a env) ∧
    (traceWorld World.init (startTrace a env)).cancelled .all = true := by
  have htr : startTrace a env =
      registrations a ++
      [.launch .gateway .sinks,
       .waitAuth AuthorizationTimeoutDuration (some e),
       .fireToken .all, .ret (some e)] := by
    simp [startTrace, h]
  refine ⟨htr, ?_, ?_⟩
  · rw [htr]
    cases hm : a.EnableMetrics <;> cases ha : a.EnableAutomation <;>
      simp [registrations, hm, ha]
  · rw [htr, traceWorld_append, traceWorld_registrations]
    rfl

/-- Witness for C4 amended at a concrete agent and environment. -/
theorem C4_witness :
    startTrace (New 0 0 0 0 0 0 false true) ⟨some 9, []⟩ =
      registrations (New 0 0 0 0 0 0 false true) ++
      [.launch .gateway .sinks,
       .waitAuth AuthorizationTimeoutDuration (some 9),
       .fireToken .all, .ret (some 9)] ∧
    (Ev.egWait ∉ startTrace (New 0 0 0 0 0 0 false true) ⟨some 9, []⟩) ∧
    (traceWorld World.init
      (startTrace (New 0 0 0 0 0 0 false true) ⟨some 9, []⟩)).cancelled
      .all = true :=
  C4_auth_failure_cancels_root_without_join (New 0 0 0 0 0 0 false true)
    ⟨some 9, []⟩ 9 rfl

/-- **C7** — `Stop`, `stopSources` and `stopSinks` are total and
idempotent: every call returns nil; a call finding a nil handle (e.g.
before `Start` stored one) returns with no effect; the first effective
call fires the stored token and replaces the handle with the
already-stopped sentinel (nil); and an immediate second call is a
no-op. -/
theorem C7_stop_operations_idempotent (a : Agent) (w : World) :
    ((Stop a w).2.2 = none ∧ (stopSources a w).2.2 = none ∧
      (stopSinks a w).2.2 = none) ∧
    (a.cancelAll = none → Stop a w = (a, w, none)) ∧
    (a.cancelSources = none → stopSources a w = (a, w, none)) ∧
    (a.cancelSinks = none → stopSinks a w = (a, w, none)) ∧
    (∀ t, a.cancelAll = some t →
      Stop a w = ({ a with cancelAll := none }, w.fire t, none)) ∧
    (∀ t, a.cancelSources = some t →
      stopSources a w = ({ a with cancelSources := none }, w.fire t, none)) ∧
    (∀ t, a.cancelSinks = some t →
      stopSinks a w = ({ a with cancelSinks := none }, w.fire t, none)) ∧
    (Stop (Stop a w).1 (Stop a w).2.1 =
      ((Stop a w).1, (Stop a w).2.1, none)) ∧
    (stopSources (stopSources a w).1 (stopSources a w).2.1 =
      ((stopSources a w).1, (stopSources a w).2.1, none)) ∧
    (stopSinks (stopSinks a w).1 (stopSinks a w).2.1 =
      ((stopSinks a w).1, (stopSinks a w).2.1, none)) := by
  cases hA : a.cancelAll <;> cases hS : a.cancelSources <;>
    cases hK : a.cancelSinks <;>
    simp [Stop, stopSources, stopSinks, hA, hS, hK]

/-- Witness for C7: a freshly constructed agent has nil handles, so
every stop is a no-op; after `Start` stores the handles, `Stop` fires
the root token and nils the handle. -/
theorem C7_witness :
    Stop (New 0 0 0 0 0 0 true false) World.init =
      (New 0 0 0 0 0 0 true false, World.init, none) ∧
    stopSources (New 0 0 0 0 0 0 true false) World.init =
      (New 0 0 0 0 0 0 true false, World.init, none) ∧
    Stop (startHandles (New 0 0 0 0 0 0 true false)) World.init =
      ({ startHandles (New 0 0 0 0 0 0 true false) with cancelAll := none },
       World.init.fire .all, none) :=
  ⟨(C7_stop_operations_idempotent (New 0 0 0 0 0 0 true false)
      World.init).2.1 rfl,
   (C7_stop_operations_idempotent (New 0 0 0 0 0 0 true false)
      World.init).2.2.1 rfl,
   (C7_stop_operations_idempotent
      (startHandles (New 0 0 0 0 0 0 true false)) World.init).2.2.2.2.1
      .all rfl⟩

/-- **C8** — `ConfigureGlobalLogger` succeeds exactly for the level
names `info`, `debug`, `warn` and `error`, configuring the matching
severity, the supplied sink and the global identity fields on the
process-wide logger; for every other name it returns an
unsupported-level error and leaves the logger state untouched. The
handler `main` wires into the agent forwards `level.Level` to it. -/
theorem C8_log_level_switch (acc cl : UUID) (sink : Nat) (st : LoggerState) :
    ConfigureGlobalLogger acc cl "info" sink st =
      ({ level := .info, sink := sink, globalAccountID := some acc,
         globalClusterID := some cl }, none) ∧
    ConfigureGlobalLogger acc cl "debug" sink st =
      ({ level := .debug, sink := sink, globalAccountID := some acc,
         globalClusterID := some cl }, none) ∧
    ConfigureGlobalLogger acc cl "warn" sink st =
      ({ level := .warn, sink := sink, globalAccountID := some acc,
         globalClusterID := some cl }, none) ∧
    ConfigureGlobalLogger acc cl "error" sink st =
      ({ level := .error, sink := sink, globalAccountID := some acc,
         globalClusterID := some cl }, none) ∧
    (∀ name : String,
      name ∉ (["info", "debug", "warn", "error"] : List String) →
      ConfigureGlobalLogger acc cl name sink st =
        (st, some ("unsupported log level " ++ name))) ∧
    (∀ lvl : LogLevel, mainLogLevelHandler acc cl sink st lvl =
      ConfigureGlobalLogger acc cl lvl.Level sink st) := by
  refine ⟨rfl, rfl, rfl, rfl, ?_, fun lvl => rfl⟩
  intro name h
  simp only [List.mem_cons, List.mem_singleton, not_or] at h
  obtain ⟨h1, h2, h3, h4, -⟩ := h
  simp [ConfigureGlobalLogger, h1, h2, h3, h4]

/-- Witness for C8: `debug` succeeds and configures debug severity;
the unsupported name `verbose` fails and leaves the state unchanged. -/
theorem C8_witness :
    ConfigureGlobalLogger 1 2 "debug" 3
      { level := .warn, sink := 0, globalAccountID := none,
        globalClusterID := none } =
      ({ level := .debug, sink := 3, globalAccountID := some 1,
         globalClusterID := some 2 }, none) ∧
    ("verbose" ∉ (["info", "debug", "warn", "error"] : List String)) ∧
    ConfigureGlobalLogger 1 2 "verbose" 3
      { level := .warn, sink := 0, globalAccountID := none,
        globalClusterID := none } =
      ({ level := .warn, sink := 0, globalAccountID := none,
         globalClusterID := none },
       some ("unsupported log level " ++ "verbose")) :=
  ⟨(C8_log_level_switch 1 2 3
      { level := .warn, sink := 0, globalAccountID := none,
        globalClusterID := none }).2.1,
   by decide,
   (C8_log_level_switch 1 2 3
      { level := .warn, sink := 0, globalAccountID := none,
        globalClusterID := none }).2.2.2.2.1 "verbose" (by decide)⟩

/-- **C9, counterexample** — the claim says `New` sets `AccountID`,
`ClusterID` and `AgentID` from construction-time inputs. `New` has no
identity parameters at all: at an explicit call with non-zero arguments
everywhere, all three identity fields of the returned agent are the
zero UUID, and they coincide with those of a call made from entirely
different arguments. -/
theorem C9_counterexample :
    (New 11 22 33 44 55 66 true false).AccountID = 0 ∧
    (New 11 22 33 44 55 66 true false).ClusterID = 0 ∧
    (New 11 22 33 44 55 66 true false).AgentID = 0 ∧
    (New 11 22 33 44 55 66 true false).AccountID =
      (New 99 98 97 96 95 94 false true).AccountID := by
  refine ⟨rfl, rfl, rfl, rfl⟩

/-- **C9, amended** — `New` takes no identity inputs and leaves
`AccountID`, `ClusterID` and `AgentID` at their zero values, and no
supervisor operation (`Start`'s handle storing, `Stop`, `stopSources`,
`stopSinks`) ever modifies them. -/
theorem C9_identity_zero_and_immutable (m e x g lh au : Collab)
    (em ea : Bool) (a : Agent) (w : World) :
    ((New m e x g lh au em ea).AccountID = 0 ∧
     (New m e x g lh au em ea).ClusterID = 0 ∧
     (New m e x g lh au em ea).AgentID = 0) ∧
    ((startHandles a).AccountID = a.AccountID ∧
     (startHandles a).ClusterID = a.ClusterID ∧
     (startHandles a).AgentID = a.AgentID) ∧
    ((Stop a w).1.AccountID = a.AccountID ∧
     (Stop a w).1.ClusterID = a.ClusterID ∧
     (Stop a w).1.AgentID = a.AgentID) ∧
    ((stopSources a w).1.AccountID = a.AccountID ∧
     (stopSources a w).1.ClusterID = a.ClusterID ∧
     (stopSources a w).1.AgentID = a.AgentID) ∧
    ((stopSinks a w).1.AccountID = a.AccountID ∧
     (stopSinks a w).1.ClusterID = a.ClusterID ∧
     (stopSinks a w).1.AgentID = a.AgentID) := by
  refine ⟨⟨rfl, rfl, rfl⟩, ⟨rfl, rfl, rfl⟩, ?_, ?_, ?_⟩
  · cases hA : a.cancelAll <;> simp [Stop, hA]
  · cases hS : a.cancelSources <;> simp [stopSources, hS]
  · cases hK : a.cancelSinks <;> simp [stopSinks, hK]

end MagalixAgent
